import Mathlib

/-
  Verification development for the ai_sre_data benchmark-analysis scripts.

  The embedded code comes from:
    - src/benchmark_analyzer.py            (pipeline A)
    - src/result-analyse/analyze_benchmark_results.py  (pipeline B)
    - src/remove_supervisor.py             (field-stripping utility)

  Numeric JSON values are modelled as Rat, integers as Int, optional JSON
  fields as Option, and the dynamic results mapping as a structure of
  Option-typed fields (one per field the code reads).
-/

namespace AiSreData

/-- Boolean test that needle occurs as a contiguous sublist of hay,
modelling the Python substring operator. -/
def infixOfB (needle : List Char) : List Char → Bool
  | [] => needle.isEmpty
  | c :: t => needle.isPrefixOf (c :: t) || infixOfB needle t

/-- Python substring containment: sub occurs contiguously inside hay. -/
def strContains (hay sub : String) : Bool :=
  infixOfB sub.data hay.data

/-- Lowercasing of a string character by character, modelling the Python
lower method on the ASCII identifiers the scripts classify. -/
def lowerStr (s : String) : String :=
  String.mk (s.data.map Char.toLower)

/-- Fixed ordered list of task types used by pipeline A, from
benchmark_analyzer.extract_task_type. -/
def task_types : List String := ["detection", "localization", "analysis", "mitigation"]

/-- Embedding of benchmark_analyzer.extract_task_type: empty identifier is
falsy and yields unknown, otherwise the first keyword that occurs in the
lowercased identifier wins. -/
def extract_task_type (problem_id : String) : String :=
  if problem_id = "" then "unknown"
  else
    let lo := lowerStr problem_id
    if strContains lo "detection" then "detection"
    else if strContains lo "localization" then "localization"
    else if strContains lo "analysis" then "analysis"
    else if strContains lo "mitigation" then "mitigation"
    else "unknown"

/-- Spec-side formulation of variant A classification: first element of the
fixed list occurring as a case-insensitive substring, unknown when none. -/
def firstSubstrMatch (problem_id : String) : String :=
  (task_types.find? (fun t => strContains (lowerStr problem_id) t)).getD "unknown"

/-- Splitting a character list at every occurrence of a separator,
keeping empty segments, the semantics of the Python split method with an
explicit separator. -/
def splitOnChar (sep : Char) : List Char → List (List Char)
  | [] => [[]]
  | c :: t =>
    match splitOnChar sep t with
    | [] => [[c]]
    | h :: r => if c = sep then [] :: h :: r else (c :: h) :: r

/-- Splitting a string on the dash separator, as the Python split call in
extract_problem_info. -/
def splitDash (s : String) : List String :=
  (splitOnChar '-' s.data).map String.mk

/-- Embedding of analyze_benchmark_results.extract_problem_info: split the
identifier on the dash; with at least two segments the second-to-last
segment is the task type and the segments before it joined by a dash form
the problem base; otherwise the whole identifier with task type unknown.
Returns the pair of problem base and task type, in that order. -/
def extract_problem_info (problem_id : String) : String × String :=
  let parts := splitDash problem_id
  if 2 ≤ parts.length then
    (String.intercalate "-" (parts.take (parts.length - 2)),
     parts.getD (parts.length - 2) "")
  else
    (problem_id, "unknown")

/-- Keyword list of the infrastructure category, from
analyze_benchmark_results.categorize_problem_type. -/
def infrastructure_problems : List String :=
  ["k8s_target_port", "auth_miss_mongodb", "revoke_auth_mongodb",
   "storage_user_unregistered", "redeploy_without_pv", "network_loss",
   "network_delay", "kernel_fault", "disk_woreout"]

/-- Keyword list of the application category. -/
def application_problems : List String :=
  ["misconfig_app", "ad_service_failure", "ad_service_high_cpu",
   "ad_service_manual_gc", "cart_service_failure", "payment_service_failure",
   "payment_service_unreachable", "product_catalog_failure",
   "recommendation_service_cache_failure", "image_slow_load",
   "loadgenerator_flood_homepage", "kafka_queue_problems",
   "flower_model_misconfig"]

/-- Keyword list of the operational category. -/
def operational_problems : List String :=
  ["scale_pod", "assign_non_existent_node", "container_kill",
   "pod_failure", "pod_kill", "wrong_bin_usage", "operator_misoperation",
   "flower_node_stop"]

/-- Keyword list of the baseline category. -/
def baseline_problems : List String := ["no_op"]

/-- Embedding of analyze_benchmark_results.categorize_problem_type: the
categories are probed in dictionary insertion order and a category matches
when some keyword of its list is a substring of the problem base. -/
def categorize_problem_type (problem_base : String) : String :=
  if infrastructure_problems.any (fun p => strContains problem_base p) then "infrastructure"
  else if application_problems.any (fun p => strContains problem_base p) then "application"
  else if operational_problems.any (fun p => strContains problem_base p) then "operational"
  else if baseline_problems.any (fun p => strContains problem_base p) then "baseline"
  else "other"

/-- Category table in the fixed enumeration order of the source dictionary. -/
def category_table : List (String × List String) :=
  [("infrastructure", infrastructure_problems),
   ("application", application_problems),
   ("operational", operational_problems),
   ("baseline", baseline_problems)]

/-- Spec-side formulation of category classification: first category of the
table having some keyword that is a substring of the problem base. -/
def firstCategoryMatch (problem_base : String) : String :=
  ((category_table.find? (fun c => c.2.any (fun k => strContains problem_base k))).map
    (fun c => c.1)).getD "other"

/-- Typed view of the dynamic results mapping of a RawResultDocument: one
Option-typed field per key the scripts read; none means the key is absent. -/
structure Results where
  success : Option Bool := none
  detection_accuracy : Option String := none
  localization_accuracy : Option String := none
  analysis_accuracy : Option String := none
  mitigation_accuracy : Option String := none
  accuracy : Option String := none
  supervisor_result : Option String := none
  steps : Option Int := none
  in_tokens : Option Int := none
  out_tokens : Option Int := none
  ttm : Option Rat := none
  ttd : Option Rat := none
  ttl : Option Rat := none
  tta : Option Rat := none

/-- Typed view of a RawResultDocument: top-level keys read by the scripts. -/
structure Doc where
  session_id : Option String := none
  agent : Option String := none
  problem_id : Option String := none
  start_time : Option Rat := none
  end_time : Option Rat := none
  results : Results := {}

/-- Success resolution chain of benchmark_analyzer.analyze_json_files: the
if and elif chain over the results mapping, tri-state because the success
cell is initialised to None and left there when no field matches. -/
def resolveSuccessA (r : Results) (is_supervisor_enabled : Bool) : Option Bool :=
  match r.success with
  | some b => some b
  | none =>
  match r.detection_accuracy with
  | some v =>
      if is_supervisor_enabled then
        some (v == "Correct" && r.supervisor_result == some "Correct")
      else
        some (v == "Correct")
  | none =>
  match r.localization_accuracy with
  | some v => some (v == "Correct")
  | none =>
  match r.analysis_accuracy with
  | some v => some (v == "Correct")
  | none =>
  match r.mitigation_accuracy with
  | some v => some (v == "Correct")
  | none =>
  match r.accuracy with
  | some v => some (v == "Correct")
  | none => none

/-- Success resolution chain of analyze_benchmark_results.analyze_results:
success is initialised to False and overwritten by the first matching
field, so a document with no recognised field resolves to false. -/
def resolveSuccessB (r : Results) : Bool :=
  match r.success with
  | some b => b
  | none =>
  match r.detection_accuracy with
  | some v => v == "Correct"
  | none =>
  match r.localization_accuracy with
  | some v => v == "Correct"
  | none =>
  match r.analysis_accuracy with
  | some v => v == "Correct"
  | none =>
  match r.mitigation_accuracy with
  | some v => v == "Correct"
  | none =>
  match r.accuracy with
  | some v => v == "Correct"
  | none => false

/-- Python truthiness of an optional numeric value: present and nonzero. -/
def optTruthy (o : Option Rat) : Bool :=
  match o with
  | some q => q != 0
  | none => false

/-- Duration computation of benchmark_analyzer.analyze_json_files: the
duration cell starts as None and is set to the difference only when both
raw timestamps are truthy; no other field is ever consulted. -/
def durationA (start_time end_time : Option Rat) : Option Rat :=
  if optTruthy start_time && optTruthy end_time then
    some (end_time.getD 0 - start_time.getD 0)
  else
    none

/-- Named duration probe of analyze_benchmark_results.analyze_results: the
fields TTM, TTD, TTL, TTA are probed in this fixed order, default 0. -/
def ttmB (r : Results) : Rat :=
  match r.ttm with
  | some v => v
  | none =>
  match r.ttd with
  | some v => v
  | none =>
  match r.ttl with
  | some v => v
  | none =>
  match r.tta with
  | some v => v
  | none => 0

/-- Execution time of analyze_benchmark_results.analyze_results: the
timestamp difference when end is strictly greater than start, with absent
timestamps read as 0, and the named duration probe otherwise. -/
def execution_timeB (d : Doc) : Rat :=
  if d.end_time.getD 0 > d.start_time.getD 0 then
    d.end_time.getD 0 - d.start_time.getD 0
  else
    ttmB d.results

/-- Normalized record built by benchmark_analyzer.analyze_json_files for
one input document. -/
structure RecA where
  session_id : String
  problem_id : String
  success : Option Bool
  task_type : String
  in_tokens : Option Int
  out_tokens : Option Int
  duration : Option Rat
  steps : Option Int
  supervisor_result : Option String

/-- Loader step of pipeline A: one document to one normalized record. -/
def normalizeA (d : Doc) (is_supervisor_enabled : Bool) : RecA :=
  { session_id := d.session_id.getD ""
    problem_id := d.problem_id.getD ""
    success := resolveSuccessA d.results is_supervisor_enabled
    task_type := extract_task_type (d.problem_id.getD "")
    in_tokens := d.results.in_tokens
    out_tokens := d.results.out_tokens
    duration := durationA d.start_time d.end_time
    steps := d.results.steps
    supervisor_result := d.results.supervisor_result }

/-- Console summary buckets of benchmark_analyzer.print_summary_stats:
counts of successful, failed and unknown-status records, in that order. -/
def summaryA (recs : List RecA) : Nat × Nat × Nat :=
  (recs.countP (fun r => r.success == some true),
   recs.countP (fun r => r.success == some false),
   recs.countP (fun r => r.success == none))

/-- Normalized record built by analyze_benchmark_results.analyze_results
for one input document. -/
structure RecB where
  session_id : String
  agent : String
  problem_id : String
  problem_base : String
  task_type : String
  category : String
  success : Bool
  execution_time : Rat
  task_time : Rat
  steps : Int
  in_tokens : Int
  out_tokens : Int

/-- Loader step of pipeline B: one document to one normalized record. -/
def normalizeB (d : Doc) : RecB :=
  let problem_id := d.problem_id.getD "unknown"
  let info := extract_problem_info problem_id
  { session_id := d.session_id.getD "unknown"
    agent := d.agent.getD "unknown"
    problem_id := problem_id
    problem_base := info.1
    task_type := info.2
    category := categorize_problem_type info.1
    success := resolveSuccessB d.results
    execution_time := execution_timeB d
    task_time := ttmB d.results
    steps := d.results.steps.getD 0
    in_tokens := d.results.in_tokens.getD 0
    out_tokens := d.results.out_tokens.getD 0 }

/-- Overall counters of analyze_benchmark_results.analyze_results: total,
successful and failed case counts, in that order; there is no unknown
bucket in this pipeline. -/
def statsB (docs : List Doc) : Nat × Nat × Nat :=
  let recs := docs.map normalizeB
  (recs.length,
   recs.countP (fun r => r.success),
   recs.countP (fun r => !r.success))

/-- Rounding to two decimal places used at render time. Python rounds
binary floats; this rational model rounds exactly, which agrees on the
values the claims exercise. -/
def round2 (q : Rat) : Rat :=
  ((round (q * 100) : Int) : Rat) / 100

/-- Maximum of a list with an explicit default for the empty list,
modelling the pandas max over a series. -/
def listMaxD {α : Type} [LinearOrder α] (l : List α) (dflt : α) : α :=
  match l with
  | [] => dflt
  | x :: xs => xs.foldl max x

/-- Minimum of a list with an explicit default for the empty list,
modelling the pandas min over a series. -/
def listMinD {α : Type} [LinearOrder α] (l : List α) (dflt : α) : α :=
  match l with
  | [] => dflt
  | x :: xs => xs.foldl min x

/-- One row of the observation CSV of
benchmark_analyzer.generate_observation_csv. -/
structure ObsRow where
  taskType : String
  successRate : Rat
  averageTime : Rat
  averageSteps : Rat
  longestTime : Rat
  mostSteps : Int
  leastTime : Rat
  leastSteps : Int

/-- Zero-filled observation row emitted for a task type with no records. -/
def zeroObsRow (t : String) : ObsRow :=
  { taskType := t, successRate := 0, averageTime := 0, averageSteps := 0,
    longestTime := 0, mostSteps := 0, leastTime := 0, leastSteps := 0 }

/-- Observation row computed by generate_observation_csv for one task
type: the zero-filled row when the filtered frame is empty, otherwise the
rounded rate and time and step statistics of the group. -/
def obsRowFor (df : List RecA) (t : String) : ObsRow :=
  let task_data := df.filter (fun r => r.task_type == t)
  if task_data.length = 0 then zeroObsRow t
  else
    let total_tasks := task_data.length
    let successful_tasks := (task_data.filter (fun r => r.success == some true)).length
    let success_rate : Rat :=
      if 0 < total_tasks then (successful_tasks : Rat) / (total_tasks : Rat) * 100 else 0
    let time_values := task_data.filterMap (fun r => r.duration)
    let avg_time : Rat :=
      if 0 < time_values.length then time_values.sum / (time_values.length : Rat) else 0
    let longest_time : Rat := if 0 < time_values.length then listMaxD time_values 0 else 0
    let least_time : Rat := if 0 < time_values.length then listMinD time_values 0 else 0
    let step_values := task_data.filterMap (fun r => r.steps)
    let avg_steps : Rat :=
      if 0 < step_values.length then ((step_values.sum : Int) : Rat) / (step_values.length : Rat) else 0
    let most_steps : Int := if 0 < step_values.length then listMaxD step_values 0 else 0
    let least_steps : Int := if 0 < step_values.length then listMinD step_values 0 else 0
    { taskType := t, successRate := round2 success_rate,
      averageTime := round2 avg_time, averageSteps := round2 avg_steps,
      longestTime := round2 longest_time, mostSteps := most_steps,
      leastTime := round2 least_time, leastSteps := least_steps }

/-- Observation report of generate_observation_csv: one row per fixed task
type, in the fixed order. -/
def generate_observation_rows (df : List RecA) : List ObsRow :=
  task_types.map (obsRowFor df)

/-- Group accumulator of analyze_benchmark_results.analyze_results: the
per-key entry of the by_agent, by_problem_type, by_task_type and
by_category defaultdict tables. -/
structure GroupAgg where
  total : Nat
  success : Nat
  failed : Nat
  tokens_in : Int
  tokens_out : Int
  total_time : Rat

/-- Fresh accumulator entry, the defaultdict factory value. -/
def gzero : GroupAgg :=
  { total := 0, success := 0, failed := 0, tokens_in := 0, tokens_out := 0, total_time := 0 }

/-- Folding one record into one accumulator entry, matching the update
block of analyze_results. -/
def gAdd (g : GroupAgg) (r : RecB) : GroupAgg :=
  { total := g.total + 1
    success := g.success + (if r.success then 1 else 0)
    failed := g.failed + (if r.success then 0 else 1)
    tokens_in := g.tokens_in + r.in_tokens
    tokens_out := g.tokens_out + r.out_tokens
    total_time := g.total_time + r.execution_time }

/-- One fold step over the whole table, viewed as a total map from keys to
accumulator entries with the defaultdict zero entry as default. -/
def stepAgg (key : RecB → String) (m : String → GroupAgg) (r : RecB) : String → GroupAgg :=
  fun k => if key r = k then gAdd (m k) r else m k

/-- Aggregation of a record sequence under a grouping key function, the
sequential fold performed by analyze_results. -/
def aggregateBy (key : RecB → String) (rs : List RecB) : String → GroupAgg :=
  rs.foldl (stepAgg key) (fun _ => gzero)

/-- Untyped JSON value, the document model of remove_supervisor.py, which
edits raw documents generically. -/
inductive JVal where
  | null : JVal
  | bool : Bool → JVal
  | str : String → JVal
  | num : Rat → JVal
  | arr : List JVal → JVal
  | obj : List (String × JVal) → JVal

/-- Raw JSON document: an association list of top-level keys. -/
def JDoc := List (String × JVal)

/-- Fields stripped by remove_supervisor.py, in the order it probes them. -/
def fields_to_remove : List String := ["supervisor_result", "supervisor_explanation"]

/-- Embedding of remove_supervisor.remove_supervisor_fields: when the
document holds a results object, delete the two supervisor fields from it
and report which of them were actually present; otherwise return the
document unchanged with an empty report. -/
def remove_supervisor_fields (data : JDoc) : JDoc × List String :=
  match data.lookup "results" with
  | some (JVal.obj kvs) =>
      let removed_fields := fields_to_remove.filter (fun f => kvs.any (fun kv => kv.1 == f))
      let kvs' := kvs.filter (fun kv => !(fields_to_remove.contains kv.1))
      (data.map (fun kv => if kv.1 == "results" then (kv.1, JVal.obj kvs') else kv),
       removed_fields)
  | some _ => (data, [])
  | none => (data, [])

/-- Presence of a field inside the results object of a raw document. -/
def hasResultsField (data : JDoc) (f : String) : Bool :=
  match data.lookup "results" with
  | some (JVal.obj kvs) => kvs.any (fun kv => kv.1 == f)
  | some _ => false
  | none => false

/-- Sample normalized record of pipeline A used to exercise the
observation report. -/
def obsSampleRec : RecA :=
  { session_id := "s1", problem_id := "k8s_target_port-detection-1",
    success := some true, task_type := "detection", in_tokens := none,
    out_tokens := none, duration := some 10, steps := some 3,
    supervisor_result := none }

/-- Sample normalized record of pipeline B used to exercise aggregation. -/
def aggRecX : RecB :=
  { session_id := "s1", agent := "agent-a", problem_id := "k8s_target_port-detection-1",
    problem_base := "k8s_target_port", task_type := "detection",
    category := "infrastructure", success := true, execution_time := 10,
    task_time := 10, steps := 3, in_tokens := 100, out_tokens := 200 }

/-- Second sample normalized record of pipeline B. -/
def aggRecY : RecB :=
  { session_id := "s2", agent := "agent-a", problem_id := "no_op-mitigation-1",
    problem_base := "no_op", task_type := "mitigation",
    category := "baseline", success := false, execution_time := 20,
    task_time := 20, steps := 5, in_tokens := 300, out_tokens := 400 }

/-- Absence of every recognised success-indicating field in the results
mapping. -/
def noSuccessSignal (r : Results) : Prop :=
  r.success = none ∧ r.detection_accuracy = none ∧ r.localization_accuracy = none ∧
  r.analysis_accuracy = none ∧ r.mitigation_accuracy = none ∧ r.accuracy = none

/-- C2: with a boolean success field present in the results mapping, both
pipelines resolve success to that boolean verbatim, whatever accuracy
style fields are also present. -/
theorem claim_c2 (r : Results) (sup : Bool) (b : Bool) (h : r.success = some b) :
    resolveSuccessA r sup = some b ∧ resolveSuccessB r = b := by
  simp [resolveSuccessA, resolveSuccessB, h]

/-- Witness for C2 at a document carrying an explicit false together with
several Correct accuracy fields. -/
theorem claim_c2_witness :
    resolveSuccessA
      { success := some false, detection_accuracy := some "Correct",
        localization_accuracy := some "Correct", accuracy := some "Correct",
        supervisor_result := some "Correct" } true = some false ∧
    resolveSuccessB
      { success := some false, detection_accuracy := some "Correct",
        localization_accuracy := some "Correct", accuracy := some "Correct",
        supervisor_result := some "Correct" } = false :=
  claim_c2 _ true false rfl

/-- C3: without an explicit success field and with a Detection Accuracy
field, under an enabled supervisor the resolution is true exactly when the
accuracy is Correct and the supervisor verdict is present and Correct; in
particular an absent supervisor verdict forces false. -/
theorem claim_c3 (r : Results) (v : String) (h1 : r.success = none)
    (h2 : r.detection_accuracy = some v) :
    (resolveSuccessA r true = some true ↔
      v = "Correct" ∧ r.supervisor_result = some "Correct")
    ∧ (v = "Correct" → r.supervisor_result = none →
      resolveSuccessA r true = some false) := by
  constructor
  · simp [resolveSuccessA, h1, h2]
  · intro hv hs
    simp [resolveSuccessA, h1, h2, hv, hs]

/-- Witness for C3 at a Correct detection document with no supervisor
verdict. -/
theorem claim_c3_witness :
    resolveSuccessA { detection_accuracy := some "Correct" } true = some false :=
  (claim_c3 { detection_accuracy := some "Correct" } "Correct" rfl rfl).2 rfl rfl

/-- C5: the structural split classifier takes the second-to-last dash
segment as task type and joins the segments before it as problem base,
and degenerates to the whole identifier with unknown task type for fewer
than two segments. -/
theorem claim_c5 (pid : String) :
    (2 ≤ (splitDash pid).length →
      extract_problem_info pid =
        (String.intercalate "-" (((splitDash pid).reverse.drop 2).reverse),
         (splitDash pid).reverse.getD 1 ""))
    ∧ ((splitDash pid).length < 2 → extract_problem_info pid = (pid, "unknown")) := by
  constructor
  · intro h
    have hrev : ((splitDash pid).reverse.drop 2).reverse =
        (splitDash pid).take ((splitDash pid).length - 2) := by
      have := @List.reverse_take String (splitDash pid) ((splitDash pid).length - 2)
      have h2 : (splitDash pid).length - ((splitDash pid).length - 2) = 2 := by omega
      rw [h2] at this
      rw [← this, List.reverse_reverse]
    have hget : (splitDash pid).reverse.getD 1 "" =
        (splitDash pid).getD ((splitDash pid).length - 2) "" := by
      rw [List.getD_eq_getElem?_getD, List.getD_eq_getElem?_getD]
      rw [List.getElem?_reverse (by simpa using (by omega : 1 < (splitDash pid).length))]
      have h3 : (splitDash pid).length - 1 - 1 = (splitDash pid).length - 2 := by omega
      rw [h3]
    rw [hrev, hget]
    simp [extract_problem_info, h]
  · intro h
    simp [extract_problem_info, Nat.not_le.mpr h]

/-- Witness for C5 at a three-segment identifier and a one-segment
identifier. -/
theorem claim_c5_witness :
    extract_problem_info "k8s_target_port-detection-1" =
      (String.intercalate "-"
        (((splitDash "k8s_target_port-detection-1").reverse.drop 2).reverse),
       (splitDash "k8s_target_port-detection-1").reverse.getD 1 "") ∧
    extract_problem_info "no_op" = ("no_op", "unknown") :=
  ⟨(claim_c5 "k8s_target_port-detection-1").1 (by decide),
   (claim_c5 "no_op").2 (by decide)⟩

/-- C6: category classification returns the first category of the fixed
table with a keyword occurring inside the problem base, other when none
occurs, and classifies k8s_target_port as infrastructure. -/
theorem claim_c6 :
    (∀ pb, categorize_problem_type pb = firstCategoryMatch pb)
    ∧ categorize_problem_type "k8s_target_port" = "infrastructure" := by
  constructor
  · intro pb
    simp only [categorize_problem_type, firstCategoryMatch, category_table, List.find?]
    cases h1 : infrastructure_problems.any (fun p => strContains pb p) <;>
    cases h2 : application_problems.any (fun p => strContains pb p) <;>
    cases h3 : operational_problems.any (fun p => strContains pb p) <;>
    cases h4 : baseline_problems.any (fun p => strContains pb p) <;>
    simp [h1, h2, h3, h4]
  · decide

/-- C7: the substring classifier returns the first of the four fixed task
types occurring case-insensitively in the identifier, unknown when none
occurs, also for the empty identifier. -/
theorem claim_c7 (pid : String) : extract_task_type pid = firstSubstrMatch pid := by
  by_cases h : pid = ""
  · subst h
    decide
  · simp only [extract_task_type, firstSubstrMatch, task_types, if_neg h, List.find?]
    cases h1 : strContains (lowerStr pid) "detection" <;>
    cases h2 : strContains (lowerStr pid) "localization" <;>
    cases h3 : strContains (lowerStr pid) "analysis" <;>
    cases h4 : strContains (lowerStr pid) "mitigation" <;>
    simp [h1, h2, h3, h4]

/-- C1 counterexample: a document with an empty results mapping resolves to
plain false in the result-analyse pipeline, whose counters then book it
under failed cases with no unknown bucket, against the claim that both
pipelines keep a third unknown state distinct from false. The triple is
total, successful and failed counts. -/
theorem claim_c1_counterexample :
    resolveSuccessB {} = false ∧ statsB [{}] = (1, 0, 1) := by
  constructor
  · rfl
  · rfl

/-- C1 amended: only the benchmark_analyzer pipeline resolves a document
without success signal to the unknown state and counts it in a bucket
distinct from failed, the three buckets adding up to the total; the
result-analyse pipeline resolves such documents to false and its
successful and failed counters already add up to the total. -/
theorem claim_c1_amended :
    (∀ r sup, noSuccessSignal r → resolveSuccessA r sup = none)
    ∧ (∀ r, noSuccessSignal r → resolveSuccessB r = false)
    ∧ (∀ recs : List RecA,
        (summaryA recs).1 + (summaryA recs).2.1 + (summaryA recs).2.2 = recs.length)
    ∧ (∀ docs : List Doc, (statsB docs).2.1 + (statsB docs).2.2 = (statsB docs).1) := by
  refine ⟨?_, ?_, ?_, ?_⟩
  · rintro r sup ⟨h1, h2, h3, h4, h5, h6⟩
    simp [resolveSuccessA, h1, h2, h3, h4, h5, h6]
  · rintro r ⟨h1, h2, h3, h4, h5, h6⟩
    simp [resolveSuccessB, h1, h2, h3, h4, h5, h6]
  · intro recs
    induction recs with
    | nil => rfl
    | cons r rs ih =>
      simp only [summaryA, List.countP_cons, List.length_cons] at ih ⊢
      rcases h : r.success with _ | b
      · simp [h]
        omega
      · cases b <;> simp [h] <;> omega
  · intro docs
    simp only [statsB]
    induction docs.map normalizeB with
    | nil => rfl
    | cons r rs ih =>
      simp only [List.countP_cons]
      cases h : r.success <;> simp [h] <;> omega

/-- Witness for C1 amended at a document with an empty results mapping and
singleton record lists. -/
theorem claim_c1_amended_witness :
    resolveSuccessA {} true = none ∧ resolveSuccessB {} = false :=
  ⟨claim_c1_amended.1 {} true ⟨rfl, rfl, rfl, rfl, rfl, rfl⟩,
   claim_c1_amended.2.1 {} ⟨rfl, rfl, rfl, rfl, rfl, rfl⟩⟩

/-- C4 counterexample: a document carrying TTM 42 and no timestamps keeps
an unknown duration in the benchmark_analyzer pipeline, which never
consults the named duration fields, and a document with no timing
information at all stores execution time 0 in the result-analyse record,
against the claim that named fields are probed in both and that an
unknown duration is never stored as 0. -/
theorem claim_c4_counterexample :
    (normalizeA { results := { ttm := some 42 } } true).duration = none
    ∧ (normalizeB {}).execution_time = 0 := by
  constructor
  · rfl
  · rfl

/-- C4 amended: in the benchmark_analyzer pipeline the duration is the
timestamp difference when both timestamps are present and nonzero and is
unknown otherwise; in the result-analyse pipeline the execution time is
the timestamp difference when the end exceeds the start, with absent
timestamps read as 0, otherwise the first present field among TTM, TTD,
TTL, TTA in that order, otherwise 0, which is stored in the record. -/
theorem claim_c4_amended :
    (∀ s e : Rat, s ≠ 0 → e ≠ 0 → durationA (some s) (some e) = some (e - s))
    ∧ (∀ so eo : Option Rat, optTruthy so = false ∨ optTruthy eo = false →
        durationA so eo = none)
    ∧ (∀ d : Doc, d.start_time.getD 0 < d.end_time.getD 0 →
        execution_timeB d = d.end_time.getD 0 - d.start_time.getD 0)
    ∧ (∀ d : Doc, ¬ d.start_time.getD 0 < d.end_time.getD 0 →
        execution_timeB d = ttmB d.results)
    ∧ (∀ r : Results, ttmB r = r.ttm.getD (r.ttd.getD (r.ttl.getD (r.tta.getD 0))))
    ∧ (∀ d : Doc, (normalizeB d).execution_time = execution_timeB d) := by
  refine ⟨?_, ?_, ?_, ?_, ?_, ?_⟩
  · intro s e hs he
    simp [durationA, optTruthy, hs, he]
  · intro so eo h
    rcases h with h | h <;> simp [durationA, h]
  · intro d h
    simp [execution_timeB, h]
  · intro d h
    simp [execution_timeB, h]
  · intro r
    cases h1 : r.ttm <;> cases h2 : r.ttd <;> cases h3 : r.ttl <;> cases h4 : r.tta <;>
      simp [ttmB, h1, h2, h3, h4]
  · intro d
    rfl

/-- Witness for C4 amended at concrete timestamps and an empty document. -/
theorem claim_c4_amended_witness :
    durationA (some 1) (some 5) = some (5 - 1)
    ∧ durationA none (some 5) = none
    ∧ execution_timeB { start_time := some 3, end_time := some 3 } = ttmB {} :=
  ⟨claim_c4_amended.1 1 5 (by norm_num) (by norm_num),
   claim_c4_amended.2.1 none (some 5) (Or.inl rfl),
   claim_c4_amended.2.2.2.1 { start_time := some 3, end_time := some 3 } (by norm_num)⟩

/-- Lookup of the results key after every results entry of the document
has been replaced by a fixed value. -/
theorem lookup_map_replace_results (d : JDoc) (v : JVal) :
    (d.map (fun kv => if kv.1 == "results" then (kv.1, v) else kv)).lookup "results" =
      if (d.lookup "results").isSome then some v else none := by
  induction d with
  | nil => rfl
  | cons kv t ih =>
    obtain ⟨k, w⟩ := kv
    by_cases h : k = "results"
    · subst h
      simp [List.lookup]
    · have h1 : (k == "results") = false := by simpa using h
      have h2 : ("results" == k) = false := by simpa using Ne.symm h
      simp only [List.map_cons]
      rw [if_neg (by simp [h1])]
      simp only [List.lookup, h2, ih]

/-- Taskwise label of an observation row is the task type it was built
for, in both branches of the report. -/
theorem obsRowFor_taskType (df : List RecA) (t : String) :
    (obsRowFor df t).taskType = t := by
  simp only [obsRowFor]
  split <;> rfl

/-- Reduction of the field-stripping utility on a document whose results
entry is an object. -/
theorem remove_eq_of_lookup_obj (d : JDoc) (kvs : List (String × JVal))
    (h : d.lookup "results" = some (JVal.obj kvs)) :
    remove_supervisor_fields d =
      (d.map (fun kv => if kv.1 == "results" then
        (kv.1, JVal.obj (kvs.filter (fun kv => !(fields_to_remove.contains kv.1)))) else kv),
       fields_to_remove.filter (fun f => kvs.any (fun kv => kv.1 == f))) := by
  unfold remove_supervisor_fields
  rw [h]

/-- Right commutativity of the aggregation step: folding two records in
either order produces the same table. -/
theorem stepAgg_comm (key : RecB → String) (m : String → GroupAgg) (a b : RecB) :
    stepAgg key (stepAgg key m a) b = stepAgg key (stepAgg key m b) a := by
  funext k
  simp only [stepAgg]
  by_cases ha : key a = k <;> by_cases hb : key b = k <;> simp [ha, hb]
  simp only [gAdd, GroupAgg.mk.injEq]
  refine ⟨?_, ?_, ?_, ?_, ?_, ?_⟩ <;> first | rfl | ring_nf

/-- Folds of the aggregation step agree on permuted record lists. -/
theorem foldl_stepAgg_perm (key : RecB → String) {l l' : List RecB} (p : l.Perm l') :
    ∀ m : String → GroupAgg, l.foldl (stepAgg key) m = l'.foldl (stepAgg key) m := by
  induction p with
  | nil => intro m; rfl
  | cons x p ih =>
    intro m
    simp only [List.foldl_cons]
    exact ih _
  | swap x y l =>
    intro m
    simp only [List.foldl_cons]
    rw [stepAgg_comm]
  | trans p q ih1 ih2 =>
    intro m
    rw [ih1, ih2]

/-- C8: the field-stripping utility is idempotent, a second application
removes nothing and leaves the document unchanged, and each application
reports exactly the supervisor fields that were present in the results
object of its input. -/
theorem claim_c8 (d : JDoc) :
    (remove_supervisor_fields (remove_supervisor_fields d).1).2 = []
    ∧ (remove_supervisor_fields (remove_supervisor_fields d).1).1 = (remove_supervisor_fields d).1
    ∧ (∀ f, f ∈ (remove_supervisor_fields d).2 ↔
        f ∈ fields_to_remove ∧ hasResultsField d f = true) := by
  rcases h : d.lookup "results" with _ | v
  · constructor
    · simp [remove_supervisor_fields, h]
    constructor
    · simp [remove_supervisor_fields, h]
    · intro f
      simp [remove_supervisor_fields, hasResultsField, h]
  · cases v with
    | obj kvs =>
      have hstep := remove_eq_of_lookup_obj d kvs h
      have hfst : (remove_supervisor_fields d).1 =
          d.map (fun kv => if kv.1 == "results" then
            (kv.1, JVal.obj (kvs.filter (fun kv => !(fields_to_remove.contains kv.1)))) else kv) := by
        rw [hstep]
      have hlook2 : ((remove_supervisor_fields d).1).lookup "results" =
          some (JVal.obj (kvs.filter (fun kv => !(fields_to_remove.contains kv.1)))) := by
        rw [hfst, lookup_map_replace_results, h]
        rfl
      have hstep2 := remove_eq_of_lookup_obj (remove_supervisor_fields d).1
        (kvs.filter (fun kv => !(fields_to_remove.contains kv.1))) hlook2
      have hclean : ∀ f ∈ fields_to_remove,
          ((kvs.filter (fun kv => !(fields_to_remove.contains kv.1))).any
            (fun kv => kv.1 == f)) = false := by
        intro f hf
        rw [Bool.eq_false_iff]
        intro hany
        rcases List.any_eq_true.mp hany with ⟨kv, hkv, hbeq⟩
        rcases List.mem_filter.mp hkv with ⟨_, hkeep⟩
        have hk : kv.1 = f := by simpa using hbeq
        rw [hk] at hkeep
        have hcon : fields_to_remove.contains f = true := by simpa using hf
        rw [hcon] at hkeep
        exact absurd hkeep (by simp)
      have hfilter2 : (kvs.filter (fun kv => !(fields_to_remove.contains kv.1))).filter
          (fun kv => !(fields_to_remove.contains kv.1)) =
          kvs.filter (fun kv => !(fields_to_remove.contains kv.1)) := by
        apply List.filter_eq_self.mpr
        intro kv hkv
        exact (List.mem_filter.mp hkv).2
      refine ⟨?_, ?_, ?_⟩
      · rw [hstep2]
        exact List.filter_eq_nil_iff.mpr (fun f hf => by rw [hclean f hf]; simp)
      · rw [hstep2]
        simp only [hfilter2, hfst, List.map_map]
        apply List.map_congr_left
        intro kv _
        by_cases hk : kv.1 = "results" <;> simp [hk]
      · intro f
        rw [hstep]
        simp only [hasResultsField, h]
        rw [List.mem_filter]
    | null =>
      refine ⟨?_, ?_, ?_⟩ <;> simp [remove_supervisor_fields, hasResultsField, h]
    | bool b =>
      refine ⟨?_, ?_, ?_⟩ <;> simp [remove_supervisor_fields, hasResultsField, h]
    | str s =>
      refine ⟨?_, ?_, ?_⟩ <;> simp [remove_supervisor_fields, hasResultsField, h]
    | num q =>
      refine ⟨?_, ?_, ?_⟩ <;> simp [remove_supervisor_fields, hasResultsField, h]
    | arr a =>
      refine ⟨?_, ?_, ?_⟩ <;> simp [remove_supervisor_fields, hasResultsField, h]

/-- C9: the observation report always has one row per fixed task type, in
the fixed order, and a task type with no input records gets the
zero-filled row instead of being omitted or failing. -/
theorem claim_c9 (df : List RecA) :
    ((generate_observation_rows df).map (fun row => row.taskType) = task_types)
    ∧ (∀ t, t ∈ task_types → (∀ r ∈ df, r.task_type ≠ t) →
        obsRowFor df t = zeroObsRow t) := by
  constructor
  · simp [generate_observation_rows, task_types, obsRowFor_taskType]
  · intro t ht hnone
    have hempty : df.filter (fun r => r.task_type == t) = [] :=
      List.filter_eq_nil_iff.mpr (fun r hr => by simpa using hnone r hr)
    simp [obsRowFor, hempty]

/-- Witness for C9 at a single detection record and the record-free
mitigation task type. -/
theorem claim_c9_witness :
    obsRowFor [obsSampleRec] "mitigation" = zeroObsRow "mitigation" :=
  (claim_c9 [obsSampleRec]).2 "mitigation" (by decide)
    (by
      intro r hr
      simp only [List.mem_singleton] at hr
      subst hr
      decide)

/-- C10: aggregation under any grouping key function is invariant under
permutation of the record sequence, for every key value. -/
theorem claim_c10 (key : RecB → String) (rs rs' : List RecB) (h : rs.Perm rs')
    (k : String) : aggregateBy key rs k = aggregateBy key rs' k := by
  unfold aggregateBy
  rw [foldl_stepAgg_perm key h]

/-- Witness for C10 at two concrete records swapped, grouped by agent. -/
theorem claim_c10_witness :
    aggregateBy (fun r => r.agent) [aggRecX, aggRecY] "agent-a" =
      aggregateBy (fun r => r.agent) [aggRecY, aggRecX] "agent-a" :=
  claim_c10 (fun r => r.agent) [aggRecX, aggRecY] [aggRecY, aggRecX]
    (List.Perm.swap aggRecY aggRecX []) "agent-a"

end AiSreData
